import Mathlib

/-!
Shallow embedding of the estimate-agent backend, an Azure Functions service
with two HTTP handlers:

* `calculate_estimate` and `enhance_estimate` from
  `src/functions/estimate-api/function_app.py`, and
* `main` from `src/functions/estimate-api/enhance_estimate/__init__.py`,

together with proofs of the behavioural properties stated in the
repository documentation.

Modelling conventions:

* Python numbers are modelled exactly: `int` as `Int`, `float` as `ℚ`
  (float rounding error is outside the model; the documented contracts are
  stated over exact arithmetic).
* JSON values are the inductive `Json` below.  Python dicts keep insertion
  order and a later duplicate key wins, hence lookups take the last binding.
* A Python exception caught by a handler's `try` is an `Except.error`
  carrying a message; an exception no `try` catches is the
  `HandlerResult.unhandled` outcome (the Functions host then reports a
  server error on its own).
* Error message texts generated dynamically by CPython or its libraries
  (`json.JSONDecodeError`, `ValueError`/`TypeError` renderings, ...) are
  abstracted by fixed strings; control flow is modelled exactly.
* The single outbound LLM network call is abstracted by an `LlmReply`
  parameter: either the raw response text the provider returned or the
  message of the exception the SDK raised.
-/

unseal Rat.mul Rat.inv Rat.add Rat.sub Rat.ofScientific

/-- JSON values, as produced by `json.loads` / consumed by `json.dumps`.
Object fields are kept in insertion order; a duplicate key may occur in the
list, in which case the *last* binding is the one a Python dict would hold. -/
inductive Json where
  | null : Json
  | bool (b : Bool) : Json
  | int (n : Int) : Json
  | float (q : ℚ) : Json
  | str (s : String) : Json
  | arr (elems : List Json) : Json
  | obj (fields : List (String × Json)) : Json

/-- Dict lookup: the last binding of the key wins (Python dict semantics
for a field list possibly containing duplicate keys). -/
def objGetLast (fields : List (String × Json)) (k : String) : Option Json :=
  fields.foldl (fun acc p => if p.1 = k then some p.2 else acc) none

/-- `d[k]` lookup on a JSON value known to be used as a dict; `none` on
non-objects (callers model the `AttributeError` separately). -/
def jlookup : Json → String → Option Json
  | .obj fs, k => objGetLast fs k
  | _, _ => none

/-- Python truthiness of a JSON value (`bool(x)`). -/
def pyTruthy : Json → Bool
  | .null => false
  | .bool b => b
  | .int n => n != 0
  | .float q => q != 0
  | .str s => s != ""
  | .arr xs => !xs.isEmpty
  | .obj fs => !fs.isEmpty

/-- Python `x or d` for an optional dict entry: a missing key yields
`None` which is falsy, and any falsy value is replaced by the default. -/
def pyOrElse (v : Option Json) (d : Json) : Json :=
  match v with
  | some x => if pyTruthy x then x else d
  | none => d

/-- The whitespace set of `str.strip()` (ASCII part; the handlers' inputs
are modelled over ASCII-space conventions). -/
def isPySpace (c : Char) : Bool :=
  c = ' ' || c = '\t' || c = '\n' || c = '\r' || c = '\x0b' || c = '\x0c'

/-- Python `str.strip()`. -/
def pyStrip (s : String) : String :=
  String.mk (((s.toList.dropWhile isPySpace).reverse.dropWhile isPySpace).reverse)

/-- Digits-to-number accumulator. -/
def digitsToNat (ds : List Char) : Nat :=
  ds.foldl (fun a c => a * 10 + (c.toNat - 48)) 0

/-- Python `int(s)` on a string: optional surrounding whitespace, an
optional sign, then at least one decimal digit. -/
def parseIntStr (s : String) : Option Int :=
  let cs := (((s.toList.dropWhile isPySpace).reverse.dropWhile isPySpace).reverse)
  match cs with
  | [] => none
  | c :: rest =>
    let sign : Int := if c = '-' then -1 else 1
    let ds := if c = '-' || c = '+' then rest else c :: rest
    if ds.isEmpty then none
    else if ds.all Char.isDigit then some (sign * (digitsToNat ds : Int))
    else none

/-- Split a leading run of decimal digits. -/
def splitDigits (cs : List Char) : List Char × List Char :=
  (cs.takeWhile Char.isDigit, cs.dropWhile Char.isDigit)

/-- Python `float(s)` on a string (the finite-literal grammar: optional
whitespace and sign, digits with an optional fractional part — at least one
digit overall — and an optional exponent).  `inf`/`nan` spellings are
outside the model. -/
def parseFloatStr (s : String) : Option ℚ :=
  let cs := (((s.toList.dropWhile isPySpace).reverse.dropWhile isPySpace).reverse)
  match cs with
  | [] => none
  | c :: rest =>
    let sgn : ℚ := if c = '-' then -1 else 1
    let cs1 := if c = '-' || c = '+' then rest else c :: rest
    let (ip, r1) := splitDigits cs1
    let (fp, r2) :=
      match r1 with
      | '.' :: r => splitDigits r
      | _ => ([], r1)
    let hadDot : Bool := match r1 with | '.' :: _ => true | _ => false
    if ip.isEmpty && fp.isEmpty then none
    else
      let mant : ℚ := sgn * ((digitsToNat (ip ++ fp) : Int) : ℚ) / ((10 : ℚ) ^ fp.length)
      let r3 := if hadDot then r2 else r1
      match r3 with
      | [] => some mant
      | e :: r4 =>
        if e = 'e' || e = 'E' then
          match r4 with
          | [] => none
          | c2 :: r5 =>
            let esgn : Int := if c2 = '-' then -1 else 1
            let eds := if c2 = '-' || c2 = '+' then r5 else c2 :: r5
            if eds.isEmpty then none
            else if eds.all Char.isDigit && (eds.dropWhile Char.isDigit).isEmpty then
              some (mant * (10 : ℚ) ^ (esgn * (digitsToNat eds : Int)))
            else none
        else none

/-- Python `int(x)` truncates a float toward zero. -/
def pyTrunc (q : ℚ) : Int :=
  if 0 ≤ q then ⌊q⌋ else ⌈q⌉

/-- Python `int(x)` over a JSON value: ints pass through, floats truncate
toward zero, bools coerce to 0/1, strings parse as integer literals;
anything else raises (`none`). -/
def pyInt : Json → Option Int
  | .int n => some n
  | .float q => some (pyTrunc q)
  | .bool b => some (if b then 1 else 0)
  | .str s => parseIntStr s
  | _ => none

/-- Python `float(x)` over a JSON value; non-numeric values raise (`none`). -/
def pyFloat : Json → Option ℚ
  | .int n => some (n : ℚ)
  | .float q => some q
  | .bool b => some (if b then 1 else 0)
  | .str s => parseFloatStr s
  | _ => none

/-- `_safe_int(x, default)`: `int(x)`, with any exception mapped to the
default (`int(None)` — a missing key — also raises). -/
def safe_int (v : Option Json) (default : Int) : Int :=
  ((v.bind pyInt).getD default)

/-- Python banker's rounding of a rational to an integer (`round(x)`):
nearest integer, ties to the even neighbour. -/
def roundHalfEven (q : ℚ) : Int :=
  if q - (⌊q⌋ : ℚ) < 1/2 then ⌊q⌋
  else if 1/2 < q - (⌊q⌋ : ℚ) then ⌊q⌋ + 1
  else if ⌊q⌋ % 2 = 0 then ⌊q⌋ else ⌊q⌋ + 1

/-- Python `round(x, 1)`. -/
def pyRound1 (q : ℚ) : ℚ :=
  ((roundHalfEven (q * 10) : ℚ)) / 10

/-- Python `round(x, 2)`. -/
def pyRound2 (q : ℚ) : ℚ :=
  ((roundHalfEven (q * 100) : ℚ)) / 100

/-- `_clamp(x, lo, hi) = max(lo, min(hi, x))`. -/
def pyClamp (x lo hi : ℚ) : ℚ :=
  max lo (min hi x)

/-- Outcome of one handler invocation.  `resp` is a JSON body returned with
a status code, `empty` a bodiless response (the CORS preflight), and
`unhandled` a Python exception that escaped the handler (the Functions
host turns it into a server error outside the modelled code). -/
inductive HandlerResult where
  | resp (status : Nat) (body : Json) : HandlerResult
  | empty (status : Nat) : HandlerResult
  | unhandled (msg : String) : HandlerResult

/-- `multipliers.get(complexity, 1.0)` for
`multipliers = {"low": 0.8, "medium": 1.0, "high": 1.4}`: string keys hit
the table, unhashable values (lists, dicts) raise, every other hashable
value misses and takes the default. -/
def complexityMult : Json → Except String ℚ
  | .str s => .ok (if s = "low" then 4/5 else if s = "medium" then 1
                   else if s = "high" then 7/5 else 1)
  | .arr _ => .error "unhashable type: list"
  | .obj _ => .error "unhashable type: dict"
  | _ => .ok 1

/-- The `try` body of `calculate_estimate` (`function_app.py` lines 12-30)
on a dict payload: `int(body.get("screen_count", 0))` — a bare `int()`,
not `_safe_int` — then the multiplier table lookup and the rounding. -/
def calcBody (fs : List (String × Json)) : Except String Json :=
  match pyInt ((objGetLast fs "screen_count").getD (.int 0)) with
  | none => .error "invalid literal for int()"
  | some sc =>
    match complexityMult ((objGetLast fs "complexity").getD (.str "medium")) with
    | .error e => .error e
    | .ok m =>
      .ok (.obj [("screen_count", .int sc),
                 ("complexity", (objGetLast fs "complexity").getD (.str "medium")),
                 ("person_days", .float (pyRound1 ((sc : ℚ) * (3/2) * m)))])

/-- The handler: parse failures, non-dict bodies and coercion failures are
all caught by the same `except` and yield 400 with `{"error": str(e)}`. -/
def calculate_estimate (body : Option Json) : HandlerResult :=
  match body with
  | none => .resp 400 (.obj [("error", .str "Invalid JSON body")])
  | some (.obj fs) =>
    (match calcBody fs with
     | .ok b => .resp 200 b
     | .error e => .resp 400 (.obj [("error", .str e)]))
  | some _ => .resp 400 (.obj [("error", .str "object has no attribute get")])

/-! ### JSON parsing (`json.loads`) and the defensive `{...}` extraction -/

/-- JSON whitespace (the four characters `json.loads` skips). -/
def jsonWs (c : Char) : Bool :=
  c = ' ' || c = '\t' || c = '\n' || c = '\r'

/-- Value of one hexadecimal digit. -/
def hexVal (c : Char) : Option Nat :=
  if '0' ≤ c ∧ c ≤ '9' then some (c.toNat - 48)
  else if 'a' ≤ c ∧ c ≤ 'f' then some (c.toNat - 87)
  else if 'A' ≤ c ∧ c ≤ 'F' then some (c.toNat - 55)
  else none

/-- Body of a JSON string after the opening quote: ordinary characters,
the two-character escapes, and `\uXXXX` (surrogate pairing outside the
model); raw control characters are rejected as `json.loads` does in strict
mode.  Returns the string and the input after the closing quote. -/
def parseJsonStringAux : List Char → List Char → Option (String × List Char)
  | acc, '"' :: rest => some (String.mk acc.reverse, rest)
  | acc, '\\' :: 'u' :: h1 :: h2 :: h3 :: h4 :: rest =>
    (match hexVal h1, hexVal h2, hexVal h3, hexVal h4 with
     | some a, some b, some c, some d =>
       parseJsonStringAux (Char.ofNat (((a * 16 + b) * 16 + c) * 16 + d) :: acc) rest
     | _, _, _, _ => none)
  | acc, '\\' :: e :: rest =>
    if e = '"' then parseJsonStringAux ('"' :: acc) rest
    else if e = '\\' then parseJsonStringAux ('\\' :: acc) rest
    else if e = '/' then parseJsonStringAux ('/' :: acc) rest
    else if e = 'b' then parseJsonStringAux ('\x08' :: acc) rest
    else if e = 'f' then parseJsonStringAux ('\x0c' :: acc) rest
    else if e = 'n' then parseJsonStringAux ('\n' :: acc) rest
    else if e = 'r' then parseJsonStringAux ('\r' :: acc) rest
    else if e = 't' then parseJsonStringAux ('\t' :: acc) rest
    else none
  | acc, c :: rest =>
    if c.toNat < 32 then none else parseJsonStringAux (c :: acc) rest
  | _, [] => none

/-- Optional-sign exponent digits after the `e`/`E` marker. -/
def parseJsonExp (cs : List Char) : Option (Int × List Char) :=
  let p : Int × List Char :=
    match cs with
    | '+' :: r => (1, r)
    | '-' :: r => (-1, r)
    | _ => (1, cs)
  match splitDigits p.2 with
  | ([], _) => none
  | (eds, r) => some (p.1 * (digitsToNat eds : Int), r)

/-- A JSON number: `-? int frac? exp?` with no leading zeros; an integer
literal yields a Python `int`, a fraction or exponent a Python `float`. -/
def parseJsonNumber (cs : List Char) : Option (Json × List Char) :=
  let p : Int × List Char := match cs with | '-' :: r => (-1, r) | _ => (1, cs)
  let sgn := p.1
  match splitDigits p.2 with
  | ([], _) => none
  | (ds, r1) =>
    if 2 ≤ ds.length ∧ ds.headD 'x' = '0' then none
    else
      match r1 with
      | '.' :: r2 =>
        (match splitDigits r2 with
         | ([], _) => none
         | (fds, r3) =>
           let mant : ℚ :=
             (sgn : ℚ) * ((digitsToNat (ds ++ fds) : Nat) : ℚ) / (10 : ℚ) ^ fds.length
           match r3 with
           | c :: r4 =>
             if c = 'e' || c = 'E' then
               match parseJsonExp r4 with
               | some (ex, r5) => some (.float (mant * (10 : ℚ) ^ ex), r5)
               | none => none
             else some (.float mant, r3)
           | [] => some (.float mant, []))
      | c :: r2 =>
        if c = 'e' || c = 'E' then
          match parseJsonExp r2 with
          | some (ex, r5) =>
            some (.float ((sgn : ℚ) * ((digitsToNat ds : Nat) : ℚ) * (10 : ℚ) ^ ex), r5)
          | none => none
        else some (.int (sgn * (digitsToNat ds : Int)), r1)
      | [] => some (.int (sgn * (digitsToNat ds : Int)), [])

mutual

/-- One JSON value, fuelled recursive descent. -/
def parseJsonValue : Nat → List Char → Option (Json × List Char)
  | 0, _ => none
  | fuel + 1, cs =>
    match cs.dropWhile jsonWs with
    | 'n' :: 'u' :: 'l' :: 'l' :: rest => some (.null, rest)
    | 't' :: 'r' :: 'u' :: 'e' :: rest => some (.bool true, rest)
    | 'f' :: 'a' :: 'l' :: 's' :: 'e' :: rest => some (.bool false, rest)
    | '"' :: rest =>
      (match parseJsonStringAux [] rest with
       | some (s, r) => some (.str s, r)
       | none => none)
    | '[' :: rest =>
      (match rest.dropWhile jsonWs with
       | ']' :: r2 => some (.arr [], r2)
       | _ =>
         match parseJsonItems fuel rest with
         | some (xs, r) => some (.arr xs, r)
         | none => none)
    | '\x7b' :: rest =>
      (match rest.dropWhile jsonWs with
       | '\x7d' :: r2 => some (.obj [], r2)
       | _ =>
         match parseJsonMembers fuel rest with
         | some (fs, r) => some (.obj fs, r)
         | none => none)
    | cs2 => parseJsonNumber cs2

/-- Comma-separated array items up to the closing bracket. -/
def parseJsonItems : Nat → List Char → Option (List Json × List Char)
  | 0, _ => none
  | fuel + 1, cs =>
    match parseJsonValue fuel cs with
    | none => none
    | some (v, r) =>
      match r.dropWhile jsonWs with
      | ',' :: r2 =>
        (match parseJsonItems fuel r2 with
         | some (xs, r3) => some (v :: xs, r3)
         | none => none)
      | ']' :: r2 => some ([v], r2)
      | _ => none

/-- Comma-separated `"key": value` members up to the closing brace. -/
def parseJsonMembers : Nat → List Char → Option (List (String × Json) × List Char)
  | 0, _ => none
  | fuel + 1, cs =>
    match cs.dropWhile jsonWs with
    | '"' :: r =>
      (match parseJsonStringAux [] r with
       | none => none
       | some (k, r2) =>
         match r2.dropWhile jsonWs with
         | ':' :: r3 =>
           (match parseJsonValue fuel r3 with
            | none => none
            | some (v, r4) =>
              match r4.dropWhile jsonWs with
              | ',' :: r5 =>
                (match parseJsonMembers fuel r5 with
                 | some (fs, r6) => some ((k, v) :: fs, r6)
                 | none => none)
              | '\x7d' :: r5 => some ([(k, v)], r5)
              | _ => none)
         | _ => none)
    | _ => none

end

/-- `json.loads`: parse one value and require only whitespace after it. -/
def jsonLoads (s : String) : Option Json :=
  let cs := s.toList
  match parseJsonValue (cs.length + 1) cs with
  | some (v, rest) => if (rest.dropWhile jsonWs).isEmpty then some v else none
  | none => none

/-- Index of the first `{` of a character list. -/
def firstBrace : List Char → Option Nat
  | [] => none
  | c :: cs => if c = '\x7b' then some 0 else (firstBrace cs).map (· + 1)

/-- Index of the last `}` of a character list. -/
def lastRBrace : List Char → Option Nat
  | [] => none
  | c :: cs =>
    match lastRBrace cs with
    | some j => some (j + 1)
    | none => if c = '\x7d' then some 0 else none

/-- The span matched by `re.search(r"\{.*\}", text, re.DOTALL)`: the match
starts at the first `{` that is followed by a later `}` — which, when any
such pair exists, is the first `{` of the text — and the greedy `.*`
extends it to the last `}` of the whole text. -/
def braceSpan (text : String) : Option String :=
  let cs := text.toList
  match firstBrace cs, lastRBrace cs with
  | some i, some j =>
    if i < j then some (String.mk ((cs.drop i).take (j - i + 1))) else none
  | _, _ => none

/-- `_extract_json` (`function_app.py` lines 58-65 and `__init__.py` lines
29-36): regex-extract the `{...}` span and `json.loads` it.  The dynamic
`json.JSONDecodeError` rendering is abstracted by a fixed prefix. -/
def extractJson (text : String) : Except String Json :=
  match braceSpan text with
  | none => .error "No JSON object found in model output"
  | some s =>
    match jsonLoads s with
    | some j => .ok j
    | none => .error ("Expecting value: " ++ s)

/-! ### The adjustment orchestrator -/

/-- The environment variables one handler reads: its vendor's API key and
model identifier. -/
structure LlmEnv where
  apiKey : Option String
  modelName : Option String

/-- Abstraction of the one outbound network call: the provider either
returned a raw response text or the SDK raised an exception. -/
inductive LlmReply where
  | text (raw : String) : LlmReply
  | error (msg : String) : LlmReply

/-- `_call_gemini` (`function_app.py` lines 68-90): the model name is read
first (logging only), then a missing key raises `RuntimeError` before any
network call; otherwise the provider's text is fed to `_extract_json`. -/
def callGemini (env : LlmEnv) (reply : LlmReply) : Except String Json :=
  match env.apiKey with
  | none => .error "GEMINI_API_KEY not set"
  | some _ =>
    match reply with
    | .error msg => .error msg
    | .text raw => extractJson raw

/-- `payload.get("core_result") or {}`: raises `AttributeError` when the
payload is not a dict. -/
def coreResultOf (payload : Json) : Except String Json :=
  match payload with
  | .obj fs => .ok (pyOrElse (objGetLast fs "core_result") (.obj []))
  | _ => .error "object has no attribute get"

/-- `_safe_int(core_result.get("estimated_amount"), 0)`: the `.get` raises
on a non-dict (a truthy non-dict `core_result` value), which `_safe_int`
does not catch; otherwise every conversion failure yields the default 0. -/
def estimatedOf (core : Json) : Except String Int :=
  match core with
  | .obj fs => .ok (safe_int (objGetLast fs "estimated_amount") 0)
  | _ => .error "object has no attribute get"

/-- `(payload.get(k) or d).strip()`: a missing or falsy value falls back to
the default string; a truthy non-string raises `AttributeError` at
`.strip()`. -/
def strippedOr (payload : Json) (k : String) (d : String) : Except String String :=
  match payload with
  | .obj fs =>
    (match objGetLast fs k with
     | none => .ok (pyStrip d)
     | some v =>
       if pyTruthy v then
         match v with
         | .str s => .ok (pyStrip s)
         | _ => .error "object has no attribute strip"
       else .ok (pyStrip d))
  | _ => .error "object has no attribute get"

/-- `float(out.get("multiplier_suggestion", 1.0))`: a missing key defaults
to `1.0`; a present value that `float()` cannot convert raises, and the
handler's `try` turns that into the 502 error path. -/
def multSuggestionOf (out : Json) : Except String ℚ :=
  match out with
  | .obj fs =>
    (match objGetLast fs "multiplier_suggestion" with
     | none => .ok 1
     | some v =>
       match pyFloat v with
       | some q => .ok q
       | none => .error "could not convert multiplier_suggestion to float")
  | _ => .error "object has no attribute get"

/-- The success body built from a parsed LLM suggestion (`function_app.py`
lines 158-173 and `__init__.py` lines 134-156): clamp the suggested
multiplier to `[1.0, 1.3]`, truncate the adjusted amount toward zero,
round the reported multiplier to two decimals, and default the optional
text fields. -/
def suggestionBody (est : Int) (modelName : String) (out : Json) (q : ℚ) : Json :=
  let mult := pyClamp q 1 (13/10)
  let adjusted := pyTrunc ((est : ℚ) * mult)
  .obj [
    ("status", .str "ok"),
    ("adjustment", .obj [
      ("multiplier", .float (pyRound2 mult)),
      ("amount_delta", .int (adjusted - est)),
      ("adjusted_amount", .int adjusted),
      ("reasons", pyOrElse (jlookup out "reasons") (.arr []))]),
    ("rationale_md", pyOrElse (jlookup out "rationale_md") (.str "")),
    ("added_warnings", pyOrElse (jlookup out "added_warnings") (.arr [])),
    ("disclaimer", .str "本結果は入力内容に基づく補助的な提案です。"),
    ("model", .str modelName)]

/-- Lines 156-173 of `function_app.py` (and 121-156 of `__init__.py`):
convert, clamp and shape a parsed suggestion, or fail into the 502 path. -/
def applySuggestion (est : Int) (modelName : String) (out : Json) : Except String Json :=
  match multSuggestionOf out with
  | .error e => .error e
  | .ok q => .ok (suggestionBody est modelName out q)

/-- The deterministic short-circuit body (`function_app.py` lines 124-138):
multiplier pinned to 1.00, fixed Japanese reason, warning and rationale. -/
def shortCircuitBody (env : LlmEnv) (est : Int) : Json :=
  let adjusted := pyTrunc ((est : ℚ) * 1)
  .obj [
    ("status", .str "ok"),
    ("adjustment", .obj [
      ("multiplier", .float 1),
      ("amount_delta", .int (adjusted - est)),
      ("adjusted_amount", .int adjusted),
      ("reasons", .arr [.str "入力情報が不足しているため、乗数は1.00に固定しました。"])]),
    ("rationale_md", .str "入力不足により係数調整は行いません。必要情報（要約・範囲）をご提供ください。"),
    ("added_warnings", .arr [.str "summary または scope が未入力です"]),
    ("disclaimer", .str "本結果は入力内容に基づく補助的な提案です。"),
    ("model", .str (env.modelName.getD "gemini-2.5-flash"))]

/-- The 502 body `{"status": "error", "message": f"LLM call failed: {e}"}`. -/
def llmFailedBody (e : String) : Json :=
  .obj [("status", .str "error"), ("message", .str ("LLM call failed: " ++ e))]

/-- The 400 body for a missing or non-positive `estimated_amount`. -/
def estRequiredBody : Json :=
  .obj [("status", .str "error"), ("message", .str "core_result.estimated_amount is required")]

/-- Lines 109-188 of `function_app.py`: what `enhance_estimate` does with a
successfully parsed request body.  Statements outside the handler's two
`try` blocks (the `.get` and `.strip()` calls on lines 109-122) can raise
unhandled exceptions; everything inside the LLM `try` lands in the 502
branch. -/
def enhancePayload (env : LlmEnv) (reply : LlmReply) (payload : Json) : HandlerResult :=
  match coreResultOf payload with
  | .error m => .unhandled m
  | .ok core =>
    match estimatedOf core with
    | .error m => .unhandled m
    | .ok est =>
      if est ≤ 0 then .resp 400 estRequiredBody
      else
        match strippedOr payload "summary" "" with
        | .error m => .unhandled m
        | .ok summary =>
          match strippedOr payload "scope" "" with
          | .error m => .unhandled m
          | .ok scope =>
            if summary = "" || scope = "" then .resp 200 (shortCircuitBody env est)
            else
              match callGemini env reply with
              | .error e => .resp 502 (llmFailedBody e)
              | .ok out =>
                match applySuggestion est (env.modelName.getD "gemini-2.5-flash") out with
                | .error e => .resp 502 (llmFailedBody e)
                | .ok b => .resp 200 b

/-- `enhance_estimate` (`function_app.py` lines 93-188): CORS preflight,
request-body JSON parsing, then `enhancePayload`. -/
def enhance_estimate (env : LlmEnv) (reply : LlmReply) (method : String)
    (body : Option Json) : HandlerResult :=
  if method = "OPTIONS" then .empty 204
  else
    match body with
    | none => .resp 400 (.obj [("status", .str "error"), ("message", .str "Invalid JSON")])
    | some payload => enhancePayload env reply payload

/-- Lines 54-171 of `__init__.py` (the body of `main` after request-body
parsing).  The strips of `project_name`,
`summary`, `scope` and `currency` run before the validation gate; there is
no short-circuit, and a missing `OPENAI_API_KEY` is answered with a 500
before the client is even constructed.  The `breakdown`/`warnings`/
`assumptions`/`config_version` extractions only feed the serialized LLM
payload and cannot raise, so they have no observable effect here. -/
def mainPayload (env : LlmEnv) (reply : LlmReply) (payload : Json) : HandlerResult :=
  match strippedOr payload "project_name" "" with
  | .error m => .unhandled m
  | .ok _projectName =>
  match strippedOr payload "summary" "" with
  | .error m => .unhandled m
  | .ok _summary =>
  match strippedOr payload "scope" "" with
  | .error m => .unhandled m
  | .ok _scope =>
      match coreResultOf payload with
      | .error m => .unhandled m
      | .ok core =>
        match estimatedOf core with
        | .error m => .unhandled m
        | .ok est =>
          match strippedOr core "currency" "JPY" with
          | .error m => .unhandled m
          | .ok _currency =>
            if est ≤ 0 then .resp 400 estRequiredBody
            else
              match env.apiKey with
              | none =>
                .resp 500 (.obj [("status", .str "error"),
                                 ("message", .str "OPENAI_API_KEY is not set")])
              | some _ =>
                match reply with
                | .error e => .resp 502 (llmFailedBody e)
                | .text raw =>
                  match extractJson raw with
                  | .error e => .resp 502 (llmFailedBody e)
                  | .ok out =>
                    match applySuggestion est (env.modelName.getD "gpt-4.1-mini") out with
                    | .error e => .resp 502 (llmFailedBody e)
                    | .ok b => .resp 200 b

/-- `main` of `__init__.py`: CORS preflight, request-body JSON parsing,
then `mainPayload`. -/
def enhance_main (env : LlmEnv) (reply : LlmReply) (method : String)
    (body : Option Json) : HandlerResult :=
  if method = "OPTIONS" then .empty 204
  else
    match body with
    | none => .resp 400 (.obj [("status", .str "error"), ("message", .str "Invalid JSON")])
    | some payload => mainPayload env reply payload

/-! ### Concrete fixtures used by the scenario-level statements -/

/-- A well-formed adjustment request: non-empty `summary` and `scope`,
`estimated_amount = 1000000`. -/
def payloadLlm : Json := .obj [
  ("summary", .str "web app"), ("scope", .str "backend"),
  ("core_result", .obj [("estimated_amount", .int 1000000)])]

/-- An environment with the API key configured and no model override. -/
def envK : LlmEnv := ⟨some "k", none⟩

/-- Scenario D raw LLM output: commentary around one JSON object that
suggests multiplier 1.5. -/
def rawScenarioD : String :=
  "here you go: \x7b\"multiplier_suggestion\":1.5,\"reasons\":[\"x\"]\x7d thanks"

/-- The object parsed out of `rawScenarioD`. -/
def outScenarioD : Json :=
  .obj [("multiplier_suggestion", .float (3/2)), ("reasons", .arr [.str "x"])]

/-! ### Helper lemmas about the arithmetic pieces -/

/-- Field `k` of the `"adjustment"` sub-object of a response body. -/
def adjField (b : Json) (k : String) : Option Json :=
  (jlookup b "adjustment").bind (fun a => jlookup a k)

/-- Substring occurrence, used to state that an error message mentions a
given fragment. -/
def mentionsSub (s sub : String) : Prop :=
  sub.toList <:+: s.toList

theorem pyTrunc_intCast (n : ℤ) : pyTrunc ((n : ℚ)) = n := by
  unfold pyTrunc
  split_ifs with h
  · exact Int.floor_intCast n
  · exact Int.ceil_intCast n

theorem pyTrunc_nonneg_eq_floor {q : ℚ} (h : 0 ≤ q) : pyTrunc q = ⌊q⌋ := by
  unfold pyTrunc
  exact if_pos h

theorem roundHalfEven_bounds {x : ℚ} (hlo : 100 ≤ x) (hhi : x ≤ 130) :
    100 ≤ roundHalfEven x ∧ roundHalfEven x ≤ 130 := by
  have hfl : (100 : ℤ) ≤ ⌊x⌋ := Int.le_floor.mpr (by exact_mod_cast hlo)
  have hfu : (⌊x⌋ : ℚ) ≤ x := Int.floor_le x
  have hfu' : ⌊x⌋ ≤ (130 : ℤ) := by
    have : (⌊x⌋ : ℚ) ≤ 130 := le_trans hfu hhi
    exact_mod_cast this
  unfold roundHalfEven
  split_ifs with h1 h2 h3
  · exact ⟨hfl, hfu'⟩
  · have htie : (1 : ℚ)/2 ≤ x - (⌊x⌋ : ℚ) := le_of_not_lt h1
    have hlt : (⌊x⌋ : ℚ) < 130 := by linarith
    have : ⌊x⌋ < (130 : ℤ) := by exact_mod_cast hlt
    exact ⟨by omega, by omega⟩
  · exact ⟨hfl, hfu'⟩
  · have htie : (1 : ℚ)/2 ≤ x - (⌊x⌋ : ℚ) := le_of_not_lt h1
    have hlt : (⌊x⌋ : ℚ) < 130 := by linarith
    have : ⌊x⌋ < (130 : ℤ) := by exact_mod_cast hlt
    exact ⟨by omega, by omega⟩

theorem pyRound2_bounds {m : ℚ} (h1 : 1 ≤ m) (h2 : m ≤ 13/10) :
    1 ≤ pyRound2 m ∧ pyRound2 m ≤ 13/10 := by
  have hb := @roundHalfEven_bounds (m * 100) (by linarith) (by linarith)
  have hcl : (100 : ℚ) ≤ (roundHalfEven (m * 100) : ℚ) := by exact_mod_cast hb.1
  have hcu : ((roundHalfEven (m * 100) : ℚ)) ≤ 130 := by exact_mod_cast hb.2
  unfold pyRound2
  constructor
  · rw [le_div_iff₀ (by norm_num : (0 : ℚ) < 100)]
    linarith
  · rw [div_le_iff₀ (by norm_num : (0 : ℚ) < 100)]
    linarith

theorem pyRound2_one : pyRound2 1 = 1 := by decide

theorem pyClamp_bounds (q : ℚ) :
    1 ≤ pyClamp q 1 (13/10) ∧ pyClamp q 1 (13/10) ≤ 13/10 := by
  refine ⟨le_max_left _ _, max_le (by norm_num) (min_le_left _ _)⟩

theorem pyClamp_of_ge {q : ℚ} (h : 13/10 ≤ q) : pyClamp q 1 (13/10) = 13/10 := by
  unfold pyClamp
  rw [min_eq_left h, max_eq_right (by norm_num : (1 : ℚ) ≤ 13/10)]

theorem le_pyTrunc_mul {est : ℤ} {m : ℚ} (hpos : 0 < est) (hm : 1 ≤ m) :
    est ≤ pyTrunc ((est : ℚ) * m) := by
  have hep : (0 : ℚ) ≤ (est : ℚ) := by exact_mod_cast hpos.le
  have hq : (0 : ℚ) ≤ (est : ℚ) * m := mul_nonneg hep (by linarith)
  rw [pyTrunc_nonneg_eq_floor hq, Int.le_floor]
  calc ((est : ℚ)) = (est : ℚ) * 1 := by ring
    _ ≤ (est : ℚ) * m := mul_le_mul_of_nonneg_left hm hep

theorem pyTrunc_mul_one (est : ℤ) : pyTrunc ((est : ℚ) * 1) = est := by
  rw [mul_one, pyTrunc_intCast]

/-! ### Inversion of the `enhance_estimate` success path -/

/-- On a parsed body and a non-preflight method, `enhance_estimate` is
`enhancePayload`. -/
theorem enhance_estimate_eq_payload (env : LlmEnv) (reply : LlmReply) {method : String}
    (hm : method ≠ "OPTIONS") (payload : Json) :
    enhance_estimate env reply method (some payload) = enhancePayload env reply payload := by
  unfold enhance_estimate
  rw [if_neg hm]

/-- Any `resp` outcome of `enhance_estimate` on a parsed body comes from
`enhancePayload` (the preflight branch returns an empty response). -/
theorem enhance_some_resp {env : LlmEnv} {reply : LlmReply} {method : String}
    {payload : Json} {st : Nat} {b : Json}
    (h : enhance_estimate env reply method (some payload) = .resp st b) :
    enhancePayload env reply payload = .resp st b := by
  by_cases hm : method = "OPTIONS"
  · unfold enhance_estimate at h
    rw [if_pos hm] at h
    exact absurd h (by simp)
  · rwa [enhance_estimate_eq_payload env reply hm payload] at h

/-- Every 200 response of the orchestrator comes from a payload that
passed the validation gate with a positive `estimated_amount`, and its
body is either the short-circuit body or the body shaped from a parsed
LLM suggestion whose multiplier conversion succeeded. -/
theorem enhancePayload_success_inv {env : LlmEnv} {reply : LlmReply} {payload b : Json}
    (h : enhancePayload env reply payload = .resp 200 b) :
    ∃ core est, coreResultOf payload = .ok core ∧ estimatedOf core = .ok est ∧ 0 < est ∧
      (b = shortCircuitBody env est ∨
       ∃ out q, callGemini env reply = .ok out ∧ multSuggestionOf out = .ok q ∧
         b = suggestionBody est (env.modelName.getD "gemini-2.5-flash") out q) := by
  unfold enhancePayload at h
  split at h
  next m hc => exact absurd h (by simp)
  next core hc =>
    split at h
    next m he => exact absurd h (by simp)
    next est he =>
      split_ifs at h with hle
      · exact absurd h (by simp)
      · split at h
        next m hs => exact absurd h (by simp)
        next summary hs =>
          split at h
          next m hsc => exact absurd h (by simp)
          next scope hsc =>
            split_ifs at h with hemp
            · have hb : b = shortCircuitBody env est := by
                have h2 := h
                simp only [HandlerResult.resp.injEq] at h2
                exact h2.2.symm
              exact ⟨core, est, hc, he, by omega, Or.inl hb⟩
            · split at h
              next e hg => exact absurd h (by simp)
              next out hg =>
                split at h
                next e ha => exact absurd h (by simp)
                next b2 ha =>
                  unfold applySuggestion at ha
                  split at ha
                  next e hm2 => exact absurd ha (by simp)
                  next q hm2 =>
                    simp only [Except.ok.injEq] at ha
                    simp only [HandlerResult.resp.injEq] at h
                    refine ⟨core, est, hc, he, by omega,
                      Or.inr ⟨out, q, hg, hm2, ?_⟩⟩
                    rw [← h.2, ← ha]

/-! ### Claims about the baseline estimator -/

theorem pyRound1_zero : pyRound1 0 = 0 := by decide

/-- C8: for every integer `screen_count` and every string `complexity`,
`calculate_estimate` answers 200 with
`person_days = round(screen_count * 1.5 * m, 1)` where `m` is 0.8 for
`"low"`, 1.0 for `"medium"`, 1.4 for `"high"` and 1.0 for any other
string; in particular `estimate(10, "high")` yields 21.0 and
`estimate(0, c)` yields 0. -/
theorem calculate_estimate_formula (n : Int) (c : String) :
    (calculate_estimate (some (.obj [("screen_count", .int n), ("complexity", .str c)])) =
      .resp 200 (.obj [("screen_count", .int n), ("complexity", .str c),
        ("person_days", .float (pyRound1 ((n : ℚ) * (3/2) *
          (if c = "low" then 4/5 else if c = "medium" then 1
           else if c = "high" then 7/5 else 1))))])) ∧
    calculate_estimate (some (.obj [("screen_count", .int 10), ("complexity", .str "high")])) =
      .resp 200 (.obj [("screen_count", .int 10), ("complexity", .str "high"),
        ("person_days", .float 21)]) ∧
    calculate_estimate (some (.obj [("screen_count", .int 0), ("complexity", .str c)])) =
      .resp 200 (.obj [("screen_count", .int 0), ("complexity", .str c),
        ("person_days", .float 0)]) := by
  refine ⟨rfl, rfl, ?_⟩
  have hgen : calculate_estimate (some (.obj [("screen_count", .int 0), ("complexity", .str c)])) =
      .resp 200 (.obj [("screen_count", .int 0), ("complexity", .str c),
        ("person_days", .float (pyRound1 (((0 : Int) : ℚ) * (3/2) *
          (if c = "low" then 4/5 else if c = "medium" then 1
           else if c = "high" then 7/5 else 1))))]) := rfl
  rw [hgen]
  have harg : (((0 : Int) : ℚ)) * (3/2) *
      (if c = "low" then (4/5 : ℚ) else if c = "medium" then 1
       else if c = "high" then 7/5 else 1) = 0 := by
    simp
  rw [harg, pyRound1_zero]

/-- On a dict payload the handler is the 200/400 dispatch on `calcBody`. -/
theorem calculate_estimate_obj (fs : List (String × Json)) :
    calculate_estimate (some (.obj fs)) =
      (match calcBody fs with
       | .ok b => HandlerResult.resp 200 b
       | .error e => HandlerResult.resp 400 (.obj [("error", .str e)])) := rfl

/-- C10: every 200 response of `calculate_estimate` echoes the
client-supplied `complexity` value verbatim (defaulting to `"medium"` only
when the field is absent); an unrecognized string such as `"extreme"` is
echoed unchanged while the computation uses the fallback multiplier 1.0. -/
theorem calculate_estimate_echoes_complexity :
    (∀ (fs : List (String × Json)) (b : Json),
       calculate_estimate (some (.obj fs)) = .resp 200 b →
       jlookup b "complexity" = some ((objGetLast fs "complexity").getD (.str "medium"))) ∧
    (∀ (fs : List (String × Json)) (n : Int) (s : String),
       objGetLast fs "screen_count" = some (.int n) →
       objGetLast fs "complexity" = some (.str s) →
       s ≠ "low" → s ≠ "medium" → s ≠ "high" →
       calculate_estimate (some (.obj fs)) =
         .resp 200 (.obj [("screen_count", .int n), ("complexity", .str s),
           ("person_days", .float (pyRound1 ((n : ℚ) * (3/2) * 1)))])) ∧
    calculate_estimate (some (.obj [("screen_count", .int 10), ("complexity", .str "extreme")])) =
      .resp 200 (.obj [("screen_count", .int 10), ("complexity", .str "extreme"),
        ("person_days", .float 15)]) := by
  refine ⟨?_, ?_, rfl⟩
  · intro fs b h
    have h' : (match calcBody fs with
        | .ok b => HandlerResult.resp 200 b
        | .error e => HandlerResult.resp 400 (.obj [("error", .str e)])) =
        HandlerResult.resp 200 b := h
    split at h'
    next b' hcb =>
      simp only [HandlerResult.resp.injEq] at h'
      obtain rfl : b' = b := h'.2
      unfold calcBody at hcb
      split at hcb
      next hsc => exact absurd hcb (by simp)
      next sc hsc =>
        split at hcb
        next e hcm => exact absurd hcb (by simp)
        next m hcm =>
          simp only [Except.ok.injEq] at hcb
          rw [← hcb]
          rfl
    next e hcb => exact absurd h' (by simp)
  · intro fs n s h1 h2 hs1 hs2 hs3
    show (match calcBody fs with
        | .ok b => HandlerResult.resp 200 b
        | .error e => HandlerResult.resp 400 (.obj [("error", .str e)])) = _
    have hcb : calcBody fs = .ok (.obj [("screen_count", .int n), ("complexity", .str s),
        ("person_days", .float (pyRound1 ((n : ℚ) * (3/2) * 1)))]) := by
      unfold calcBody
      rw [h1, h2]
      simp only [Option.getD_some, pyInt, complexityMult, if_neg hs1, if_neg hs2, if_neg hs3]
    rw [hcb]

/-- Witness: a request with the unrecognized complexity `"weird"` echoes it
and uses multiplier 1.0. -/
theorem calculate_estimate_echoes_complexity_witness :
    calculate_estimate (some (.obj [("screen_count", .int 7), ("complexity", .str "weird")])) =
      .resp 200 (.obj [("screen_count", .int 7), ("complexity", .str "weird"),
        ("person_days", .float (pyRound1 (((7 : Int) : ℚ) * (3/2) * 1)))]) :=
  calculate_estimate_echoes_complexity.2.1 _ 7 "weird" rfl rfl (by decide) (by decide) (by decide)

/-- C7 counterexample: a non-numeric `screen_count` does not coerce to 0 —
`int("abc")` raises inside the `try` and the handler answers 400 with an
`{"error": ...}` body, not 200. -/
theorem calculate_estimate_nonnumeric_400 :
    calculate_estimate (some (.obj [("screen_count", .str "abc")])) =
      .resp 400 (.obj [("error", .str "invalid literal for int()")]) := rfl

/-- C7 as amended: `calculate_estimate` never crashes — every request is
answered with 200 or with 400 `{"error": ...}`; a `screen_count` that
`int()` rejects yields the 400 branch (not a coercion to 0), and whenever
`int()` and the complexity lookup succeed the handler answers 200 with the
computed `person_days` (the coerced integer may be negative). -/
theorem calculate_estimate_error_paths :
    (∀ body : Option Json,
       (∃ b, calculate_estimate body = .resp 200 b) ∨
       (∃ e, calculate_estimate body = .resp 400 (.obj [("error", .str e)]))) ∧
    (∀ fs : List (String × Json),
       pyInt ((objGetLast fs "screen_count").getD (.int 0)) = none →
       ∃ e, calculate_estimate (some (.obj fs)) = .resp 400 (.obj [("error", .str e)])) ∧
    (∀ (fs : List (String × Json)) (n : Int) (m : ℚ),
       pyInt ((objGetLast fs "screen_count").getD (.int 0)) = some n →
       complexityMult ((objGetLast fs "complexity").getD (.str "medium")) = .ok m →
       calculate_estimate (some (.obj fs)) = .resp 200 (.obj [
         ("screen_count", .int n),
         ("complexity", (objGetLast fs "complexity").getD (.str "medium")),
         ("person_days", .float (pyRound1 ((n : ℚ) * (3/2) * m)))])) := by
  refine ⟨?_, ?_, ?_⟩
  · intro body
    match body with
    | none => exact Or.inr ⟨"Invalid JSON body", rfl⟩
    | some (.obj fs) =>
      cases hcb : calcBody fs with
      | ok b => exact Or.inl ⟨b, by rw [calculate_estimate_obj, hcb]⟩
      | error e => exact Or.inr ⟨e, by rw [calculate_estimate_obj, hcb]⟩
    | some .null => exact Or.inr ⟨"object has no attribute get", rfl⟩
    | some (.bool b) => exact Or.inr ⟨"object has no attribute get", rfl⟩
    | some (.int n) => exact Or.inr ⟨"object has no attribute get", rfl⟩
    | some (.float q) => exact Or.inr ⟨"object has no attribute get", rfl⟩
    | some (.str s) => exact Or.inr ⟨"object has no attribute get", rfl⟩
    | some (.arr xs) => exact Or.inr ⟨"object has no attribute get", rfl⟩
  · intro fs h
    refine ⟨"invalid literal for int()", ?_⟩
    rw [calculate_estimate_obj]
    have hcb : calcBody fs = .error "invalid literal for int()" := by
      unfold calcBody
      rw [h]
    rw [hcb]
  · intro fs n m h1 h2
    rw [calculate_estimate_obj]
    have hcb : calcBody fs = .ok (.obj [
        ("screen_count", .int n),
        ("complexity", (objGetLast fs "complexity").getD (.str "medium")),
        ("person_days", .float (pyRound1 ((n : ℚ) * (3/2) * m)))]) := by
      unfold calcBody
      rw [h1, h2]
    rw [hcb]

/-- Witness: the amended C7 at a concrete request whose `screen_count` is
the numeric string `"12"` (coerced by `int()` to 12). -/
theorem calculate_estimate_error_paths_witness :
    calculate_estimate (some (.obj [("screen_count", .str "12")])) = .resp 200 (.obj [
      ("screen_count", .int 12), ("complexity", .str "medium"),
      ("person_days", .float (pyRound1 (((12 : Int) : ℚ) * (3/2) * 1)))]) :=
  calculate_estimate_error_paths.2.2 _ 12 1 rfl rfl

/-! ### Claims about the adjustment orchestrator -/

/-- C1: every success (200) result of the orchestrator — short-circuit or
LLM path, for every value the parsed suggestion may take — reports a
multiplier `round(m, 2)` with the clamped `m` and the reported value both
in `[1.00, 1.30]`, computes `adjusted_amount = int(estimated_amount * m)`,
and satisfies `adjusted_amount ≥ estimated_amount`. -/
theorem enhance_success_bounds {env : LlmEnv} {reply : LlmReply} {method : String}
    {payload b : Json}
    (h : enhance_estimate env reply method (some payload) = .resp 200 b) :
    ∃ (core : Json) (est : Int) (m : ℚ) (adj : Int),
      coreResultOf payload = .ok core ∧ estimatedOf core = .ok est ∧ 0 < est ∧
      1 ≤ m ∧ m ≤ 13/10 ∧
      adjField b "multiplier" = some (.float (pyRound2 m)) ∧
      1 ≤ pyRound2 m ∧ pyRound2 m ≤ 13/10 ∧
      adjField b "adjusted_amount" = some (.int adj) ∧
      adj = pyTrunc ((est : ℚ) * m) ∧
      est ≤ adj := by
  obtain ⟨core, est, hc, he, hpos, hcase⟩ := enhancePayload_success_inv (enhance_some_resp h)
  rcases hcase with hb | ⟨out, q, hg, hm, hb⟩
  · subst hb
    refine ⟨core, est, 1, pyTrunc ((est : ℚ) * 1), hc, he, hpos, le_refl 1, by norm_num,
      ?_, ?_, ?_, ?_, rfl, ?_⟩
    · rw [pyRound2_one]; rfl
    · rw [pyRound2_one]
    · rw [pyRound2_one]; norm_num
    · rfl
    · rw [pyTrunc_mul_one]
  · subst hb
    obtain ⟨hm1, hm2⟩ := pyClamp_bounds q
    obtain ⟨hr1, hr2⟩ := pyRound2_bounds hm1 hm2
    exact ⟨core, est, pyClamp q 1 (13/10), pyTrunc ((est : ℚ) * pyClamp q 1 (13/10)),
      hc, he, hpos, hm1, hm2, rfl, hr1, hr2, rfl, rfl, le_pyTrunc_mul hpos hm1⟩

/-- Witness: C1 at a concrete request that takes the short-circuit path. -/
theorem enhance_success_bounds_witness :
    ∃ (core : Json) (est : Int) (m : ℚ) (adj : Int),
      coreResultOf (.obj [("core_result", .obj [("estimated_amount", .int 100)])]) = .ok core ∧
      estimatedOf core = .ok est ∧ 0 < est ∧
      1 ≤ m ∧ m ≤ 13/10 ∧
      adjField (shortCircuitBody ⟨none, none⟩ 100) "multiplier" = some (.float (pyRound2 m)) ∧
      1 ≤ pyRound2 m ∧ pyRound2 m ≤ 13/10 ∧
      adjField (shortCircuitBody ⟨none, none⟩ 100) "adjusted_amount" = some (.int adj) ∧
      adj = pyTrunc ((est : ℚ) * m) ∧
      est ≤ adj :=
  @enhance_success_bounds ⟨none, none⟩ (.error "net down") "POST"
    (.obj [("core_result", .obj [("estimated_amount", .int 100)])])
    (shortCircuitBody ⟨none, none⟩ 100) rfl

/-- C9: in every success (200) result of `enhance_estimate`, the reported
`amount_delta` equals `adjusted_amount - estimated_amount` exactly. -/
theorem enhance_delta_roundtrip {env : LlmEnv} {reply : LlmReply} {method : String}
    {payload b : Json}
    (h : enhance_estimate env reply method (some payload) = .resp 200 b) :
    ∃ (core : Json) (est : Int) (adj : Int),
      coreResultOf payload = .ok core ∧ estimatedOf core = .ok est ∧
      adjField b "adjusted_amount" = some (.int adj) ∧
      adjField b "amount_delta" = some (.int (adj - est)) := by
  obtain ⟨core, est, hc, he, _hpos, hcase⟩ := enhancePayload_success_inv (enhance_some_resp h)
  rcases hcase with hb | ⟨out, q, _hg, _hm, hb⟩
  · subst hb
    exact ⟨core, est, pyTrunc ((est : ℚ) * 1), hc, he, rfl, rfl⟩
  · subst hb
    exact ⟨core, est, pyTrunc ((est : ℚ) * pyClamp q 1 (13/10)), hc, he, rfl, rfl⟩

/-- Witness: C9 at a concrete request that takes the short-circuit path. -/
theorem enhance_delta_roundtrip_witness :
    ∃ (core : Json) (est : Int) (adj : Int),
      coreResultOf (.obj [("core_result", .obj [("estimated_amount", .int 250)])]) = .ok core ∧
      estimatedOf core = .ok est ∧
      adjField (shortCircuitBody ⟨none, some "m1"⟩ 250) "adjusted_amount" = some (.int adj) ∧
      adjField (shortCircuitBody ⟨none, some "m1"⟩ 250) "amount_delta" = some (.int (adj - est)) :=
  @enhance_delta_roundtrip ⟨none, some "m1"⟩ (.error "net down") "POST"
    (.obj [("core_result", .obj [("estimated_amount", .int 250)])])
    (shortCircuitBody ⟨none, some "m1"⟩ 250) rfl

/-- C2: a valid request with positive `estimated_amount` whose `summary`
or `scope` is empty or whitespace-only after trimming (the context fields
being strings or absent, per the request schema) is answered 200 without
any LLM call — the result is the same for every possible provider reply —
with multiplier exactly 1.00, `adjusted_amount = estimated_amount`, the
fixed insufficient-input reason and a non-empty `added_warnings`. -/
theorem enhance_short_circuit {env : LlmEnv} {fs : List (String × Json)} {est : Int}
    {s1 s2 : String}
    (hest : estimatedOf (pyOrElse (objGetLast fs "core_result") (.obj [])) = .ok est)
    (hpos : 0 < est)
    (hsum : strippedOr (.obj fs) "summary" "" = .ok s1)
    (hsc : strippedOr (.obj fs) "scope" "" = .ok s2)
    (hempty : s1 = "" ∨ s2 = "") :
    ∀ reply : LlmReply, enhance_estimate env reply "POST" (some (.obj fs)) =
      .resp 200 (.obj [
        ("status", .str "ok"),
        ("adjustment", .obj [
          ("multiplier", .float 1),
          ("amount_delta", .int 0),
          ("adjusted_amount", .int est),
          ("reasons", .arr [.str "入力情報が不足しているため、乗数は1.00に固定しました。"])]),
        ("rationale_md", .str "入力不足により係数調整は行いません。必要情報（要約・範囲）をご提供ください。"),
        ("added_warnings", .arr [.str "summary または scope が未入力です"]),
        ("disclaimer", .str "本結果は入力内容に基づく補助的な提案です。"),
        ("model", .str (env.modelName.getD "gemini-2.5-flash"))]) := by
  intro reply
  rw [enhance_estimate_eq_payload env reply (by decide) (.obj fs)]
  unfold enhancePayload
  split
  next m heq => simp [coreResultOf] at heq
  next core heq =>
    simp only [coreResultOf, Except.ok.injEq] at heq
    subst heq
    split
    next m heq2 => rw [hest] at heq2; cases heq2
    next est2 heq2 =>
      rw [hest] at heq2
      injection heq2 with heq2
      subst heq2
      rw [if_neg (by omega : ¬ est ≤ 0)]
      split
      next m heq3 => rw [hsum] at heq3; cases heq3
      next s1' heq3 =>
        rw [hsum] at heq3
        injection heq3 with heq3
        subst heq3
        split
        next m heq4 => rw [hsc] at heq4; cases heq4
        next s2' heq4 =>
          rw [hsc] at heq4
          injection heq4 with heq4
          subst heq4
          rw [if_pos (by rcases hempty with h | h <;> simp [h])]
          simp [shortCircuitBody, pyTrunc_intCast]

/-- Witness: C2 at Scenario C — `summary=""`, `scope="backend"`,
`estimated_amount=1000000`. -/
theorem enhance_short_circuit_witness :
    enhance_estimate ⟨some "k", none⟩ (.error "net down") "POST"
      (some (.obj [("summary", .str ""), ("scope", .str "backend"),
        ("core_result", .obj [("estimated_amount", .int 1000000)])])) =
      .resp 200 (.obj [
        ("status", .str "ok"),
        ("adjustment", .obj [
          ("multiplier", .float 1),
          ("amount_delta", .int 0),
          ("adjusted_amount", .int 1000000),
          ("reasons", .arr [.str "入力情報が不足しているため、乗数は1.00に固定しました。"])]),
        ("rationale_md", .str "入力不足により係数調整は行いません。必要情報（要約・範囲）をご提供ください。"),
        ("added_warnings", .arr [.str "summary または scope が未入力です"]),
        ("disclaimer", .str "本結果は入力内容に基づく補助的な提案です。"),
        ("model", .str ((⟨some "k", none⟩ : LlmEnv).modelName.getD "gemini-2.5-flash"))]) :=
  @enhance_short_circuit ⟨some "k", none⟩
    [("summary", .str ""), ("scope", .str "backend"),
     ("core_result", .obj [("estimated_amount", .int 1000000)])]
    1000000 "" "backend" rfl (by norm_num) rfl rfl (Or.inl rfl) (.error "net down")

/-- C3: a valid JSON-object request whose `core_result.estimated_amount`
is absent, zero or negative (anything `_safe_int` coerces to a
non-positive integer) is answered 400 with a message that mentions
`estimated_amount`, and no LLM call is made — the result is the same for
every possible provider reply. -/
theorem enhance_reject_nonpositive {env : LlmEnv} {fs : List (String × Json)} {est : Int}
    (hest : estimatedOf (pyOrElse (objGetLast fs "core_result") (.obj [])) = .ok est)
    (hnp : est ≤ 0) :
    (∀ reply : LlmReply, enhance_estimate env reply "POST" (some (.obj fs)) =
       .resp 400 estRequiredBody) ∧
    mentionsSub "core_result.estimated_amount is required" "estimated_amount" := by
  refine ⟨?_, by unfold mentionsSub; decide⟩
  intro reply
  rw [enhance_estimate_eq_payload env reply (by decide) (.obj fs)]
  unfold enhancePayload
  split
  next m heq => simp [coreResultOf] at heq
  next core heq =>
    simp only [coreResultOf, Except.ok.injEq] at heq
    subst heq
    split
    next m heq2 => rw [hest] at heq2; cases heq2
    next est2 heq2 =>
      rw [hest] at heq2
      injection heq2 with heq2
      subst heq2
      rw [if_pos hnp]

/-- Witness: C3 at Scenario B — `estimated_amount = 0`. -/
theorem enhance_reject_nonpositive_witness :
    enhance_estimate ⟨some "k", some "m"⟩ (.text "ignored") "POST"
      (some (.obj [("core_result", .obj [("estimated_amount", .int 0)])])) =
      .resp 400 estRequiredBody :=
  (@enhance_reject_nonpositive ⟨some "k", some "m"⟩
    [("core_result", .obj [("estimated_amount", .int 0)])] 0 rfl le_rfl).1 (.text "ignored")

/-- On a parsed body and a non-preflight method, `enhance_main` is
`mainPayload`. -/
theorem enhance_main_eq_payload (env : LlmEnv) (reply : LlmReply) {method : String}
    (hm : method ≠ "OPTIONS") (payload : Json) :
    enhance_main env reply method (some payload) = mainPayload env reply payload := by
  unfold enhance_main
  rw [if_neg hm]

/-- C6: when the API key environment variable is unset, a request that
reaches the LLM path is answered with a 5xx configuration failure before
any network call — the result does not depend on the provider reply.  The
`function_app.py` handler surfaces the `RuntimeError` through its `try` as
502 `LLM call failed: GEMINI_API_KEY not set`; the `__init__.py` handler
answers 500 `OPENAI_API_KEY is not set` directly. -/
theorem missing_api_key_config_error {env : LlmEnv} (hkey : env.apiKey = none)
    {fs : List (String × Json)} {est : Int} {s1 s2 p cu : String}
    (hest : estimatedOf (pyOrElse (objGetLast fs "core_result") (.obj [])) = .ok est)
    (hpos : 0 < est)
    (hsum : strippedOr (.obj fs) "summary" "" = .ok s1) (h1 : s1 ≠ "")
    (hsc : strippedOr (.obj fs) "scope" "" = .ok s2) (h2 : s2 ≠ "")
    (hpn : strippedOr (.obj fs) "project_name" "" = .ok p)
    (hcur : strippedOr (pyOrElse (objGetLast fs "core_result") (.obj [])) "currency" "JPY" = .ok cu) :
    (∀ reply : LlmReply, enhance_estimate env reply "POST" (some (.obj fs)) =
       .resp 502 (llmFailedBody "GEMINI_API_KEY not set")) ∧
    (∀ reply : LlmReply, enhance_main env reply "POST" (some (.obj fs)) =
       .resp 500 (.obj [("status", .str "error"), ("message", .str "OPENAI_API_KEY is not set")])) := by
  constructor
  · intro reply
    rw [enhance_estimate_eq_payload env reply (by decide) (.obj fs)]
    unfold enhancePayload
    split
    next m heq => simp [coreResultOf] at heq
    next core heq =>
      simp only [coreResultOf, Except.ok.injEq] at heq
      subst heq
      split
      next m heq2 => rw [hest] at heq2; cases heq2
      next est2 heq2 =>
        rw [hest] at heq2
        injection heq2 with heq2
        subst heq2
        rw [if_neg (by omega : ¬ est ≤ 0)]
        split
        next m heq3 => rw [hsum] at heq3; cases heq3
        next s1' heq3 =>
          rw [hsum] at heq3
          injection heq3 with heq3
          subst heq3
          split
          next m heq4 => rw [hsc] at heq4; cases heq4
          next s2' heq4 =>
            rw [hsc] at heq4
            injection heq4 with heq4
            subst heq4
            rw [if_neg (by simp [h1, h2])]
            have hcall : callGemini env reply = .error "GEMINI_API_KEY not set" := by
              unfold callGemini
              rw [hkey]
            split
            next e heq5 =>
              rw [hcall] at heq5
              injection heq5 with heq5
              subst heq5
              rfl
            next out heq5 => rw [hcall] at heq5; cases heq5
  · intro reply
    rw [enhance_main_eq_payload env reply (by decide) (.obj fs)]
    unfold mainPayload
    split
    next m heq => rw [hpn] at heq; cases heq
    next p' heq =>
      split
      next m heq3 => rw [hsum] at heq3; cases heq3
      next s1' heq3 =>
        split
        next m heq4 => rw [hsc] at heq4; cases heq4
        next s2' heq4 =>
          split
          next m heq5 => simp [coreResultOf] at heq5
          next core heq5 =>
            simp only [coreResultOf, Except.ok.injEq] at heq5
            subst heq5
            split
            next m heq6 => rw [hest] at heq6; cases heq6
            next est2 heq6 =>
              rw [hest] at heq6
              injection heq6 with heq6
              subst heq6
              split
              next m heq7 => rw [hcur] at heq7; cases heq7
              next cu' heq7 =>
                rw [if_neg (by omega : ¬ est ≤ 0)]
                split
                next heq8 => rfl
                next k heq8 => rw [hkey] at heq8; cases heq8

/-- Witness: C6 at a concrete request with both context fields present and
no API key configured, for both handlers. -/
theorem missing_api_key_config_error_witness :
    enhance_estimate ⟨none, none⟩ (.text "unused") "POST"
      (some (.obj [("summary", .str "a"), ("scope", .str "b"),
        ("core_result", .obj [("estimated_amount", .int 5)])])) =
      .resp 502 (llmFailedBody "GEMINI_API_KEY not set") ∧
    enhance_main ⟨none, none⟩ (.text "unused") "POST"
      (some (.obj [("summary", .str "a"), ("scope", .str "b"),
        ("core_result", .obj [("estimated_amount", .int 5)])])) =
      .resp 500 (.obj [("status", .str "error"), ("message", .str "OPENAI_API_KEY is not set")]) := by
  have h := @missing_api_key_config_error ⟨none, none⟩ rfl
    [("summary", .str "a"), ("scope", .str "b"),
     ("core_result", .obj [("estimated_amount", .int 5)])]
    5 "a" "b" "" "JPY" rfl (by norm_num) rfl (by decide) rfl (by decide) rfl rfl
  exact ⟨h.1 (.text "unused"), h.2 (.text "unused")⟩

/-- C5 counterexample: a parsed suggestion whose `multiplier_suggestion`
is non-numeric (JSON `null`) is *not* treated as 1.00 — `float(None)`
raises and the request fails as a 502 `LLM call failed` error. -/
theorem multiplier_nonnumeric_not_defaulted :
    jsonLoads "\x7b\"multiplier_suggestion\": null\x7d" =
      some (.obj [("multiplier_suggestion", .null)]) ∧
    enhance_estimate envK (.text "\x7b\"multiplier_suggestion\": null\x7d") "POST"
      (some payloadLlm) =
      .resp 502 (llmFailedBody "could not convert multiplier_suggestion to float") :=
  ⟨rfl, rfl⟩

/-- C5 as amended: the orchestrator clamps `multiplier_suggestion` into
`[1.00, 1.30]` (a suggestion of 1.5 yields exactly 1.30 and
`adjusted_amount = floor(estimated_amount * 1.30)`), and a *missing*
`multiplier_suggestion` is treated as 1.00; but a present value that
`float()` cannot convert raises and surfaces as the 502 `LLMCallFailed`
path rather than being treated as 1.00. -/
theorem multiplier_clamp_and_default :
    (∀ (est : Int) (mn : String) (fs : List (String × Json)),
       objGetLast fs "multiplier_suggestion" = none →
       applySuggestion est mn (.obj fs) = .ok (suggestionBody est mn (.obj fs) 1)) ∧
    (∀ (est : Int) (mn : String) (fs : List (String × Json)) (v : Json) (q : ℚ),
       objGetLast fs "multiplier_suggestion" = some v → pyFloat v = some q →
       applySuggestion est mn (.obj fs) = .ok (suggestionBody est mn (.obj fs) q)) ∧
    (∀ (est : Int) (mn : String) (fs : List (String × Json)) (v : Json),
       objGetLast fs "multiplier_suggestion" = some v → pyFloat v = none →
       applySuggestion est mn (.obj fs) =
         .error "could not convert multiplier_suggestion to float") ∧
    (∀ q : ℚ, 13/10 ≤ q → pyClamp q 1 (13/10) = 13/10) ∧
    (∀ (est : Int) (mn : String) (out : Json) (q : ℚ),
       adjField (suggestionBody est mn out q) "multiplier" =
         some (.float (pyRound2 (pyClamp q 1 (13/10)))) ∧
       adjField (suggestionBody est mn out q) "adjusted_amount" =
         some (.int (pyTrunc ((est : ℚ) * pyClamp q 1 (13/10))))) ∧
    (enhance_estimate envK (.text rawScenarioD) "POST" (some payloadLlm) =
       .resp 200 (suggestionBody 1000000 "gemini-2.5-flash" outScenarioD (3/2)) ∧
     adjField (suggestionBody 1000000 "gemini-2.5-flash" outScenarioD (3/2)) "multiplier" =
       some (.float (13/10)) ∧
     adjField (suggestionBody 1000000 "gemini-2.5-flash" outScenarioD (3/2)) "adjusted_amount" =
       some (.int 1300000)) := by
  refine ⟨?_, ?_, ?_, fun q h => pyClamp_of_ge h, fun est mn out q => ⟨rfl, rfl⟩, rfl, ?_, ?_⟩
  · intro est mn fs h
    simp only [applySuggestion, multSuggestionOf, h]
  · intro est mn fs v q h hv
    simp only [applySuggestion, multSuggestionOf, h, hv]
  · intro est mn fs v h hv
    simp only [applySuggestion, multSuggestionOf, h, hv]
  · calc adjField (suggestionBody 1000000 "gemini-2.5-flash" outScenarioD (3/2)) "multiplier"
        = some (.float (pyRound2 (pyClamp (3/2) 1 (13/10)))) := rfl
      _ = some (.float (13/10)) := by
          have h : pyRound2 (pyClamp (3/2) 1 (13/10)) = 13/10 := by decide
          rw [h]
  · calc adjField (suggestionBody 1000000 "gemini-2.5-flash" outScenarioD (3/2)) "adjusted_amount"
        = some (.int (pyTrunc ((1000000 : ℚ) * pyClamp (3/2) 1 (13/10)))) := rfl
      _ = some (.int 1300000) := by
          have h : pyTrunc ((1000000 : ℚ) * pyClamp (3/2) 1 (13/10)) = 1300000 := by decide
          rw [h]

/-- Witness: the amended C5 at a concrete suggestion carrying the numeric
value 2 (clamped to 1.30 downstream). -/
theorem multiplier_clamp_and_default_witness :
    applySuggestion 100 "m" (.obj [("multiplier_suggestion", .float 2)]) =
      .ok (suggestionBody 100 "m" (.obj [("multiplier_suggestion", .float 2)]) 2) :=
  multiplier_clamp_and_default.2.1 100 "m" _ (.float 2) 2 rfl rfl

/-- If `firstBrace` returns an index, that index holds `{`. -/
theorem firstBrace_get {cs : List Char} {i : Nat} (h : firstBrace cs = some i) :
    cs.get? i = some '\x7b' := by
  induction cs generalizing i with
  | nil => exact absurd h (by simp [firstBrace])
  | cons c cs ih =>
    unfold firstBrace at h
    split_ifs at h with hc
    · cases h
      simp [hc]
    · cases hf : firstBrace cs with
      | none => rw [hf] at h; cases h
      | some i' =>
        rw [hf] at h
        simp only [Option.map_some'] at h
        cases h
        simpa using ih hf

/-- If `lastRBrace` returns an index, that index holds `}`. -/
theorem lastRBrace_get {cs : List Char} {j : Nat} (h : lastRBrace cs = some j) :
    cs.get? j = some '\x7d' := by
  induction cs generalizing j with
  | nil => exact absurd h (by simp [lastRBrace])
  | cons c cs ih =>
    unfold lastRBrace at h
    cases hf : lastRBrace cs with
    | some j' =>
      rw [hf] at h
      cases h
      simpa using ih hf
    | none =>
      rw [hf] at h
      split_ifs at h with hc
      cases h
      simp [hc]

/-- `firstBrace` finds an index no later than any occurrence of `{`. -/
theorem firstBrace_le {cs : List Char} {k : Nat} (h : cs.get? k = some '\x7b') :
    ∃ i, firstBrace cs = some i ∧ i ≤ k := by
  induction cs generalizing k with
  | nil => simp at h
  | cons c cs ih =>
    by_cases hc : c = '\x7b'
    · exact ⟨0, by simp [firstBrace, hc], Nat.zero_le k⟩
    · cases k with
      | zero =>
        simp only [List.get?_cons_zero, Option.some.injEq] at h
        exact absurd h hc
      | succ k =>
        simp only [List.get?_cons_succ] at h
        obtain ⟨i, hi, hik⟩ := ih h
        refine ⟨i + 1, ?_, by omega⟩
        simp [firstBrace, hc, hi]

/-- `lastRBrace` finds an index no earlier than any occurrence of `}`. -/
theorem lastRBrace_ge {cs : List Char} {k : Nat} (h : cs.get? k = some '\x7d') :
    ∃ j, lastRBrace cs = some j ∧ k ≤ j := by
  induction cs generalizing k with
  | nil => simp at h
  | cons c cs ih =>
    cases k with
    | zero =>
      simp only [List.get?_cons_zero, Option.some.injEq] at h
      subst h
      cases hf : lastRBrace cs with
      | some j' => exact ⟨j' + 1, by simp [lastRBrace, hf], by omega⟩
      | none => exact ⟨0, by simp [lastRBrace, hf], le_rfl⟩
    | succ k =>
      simp only [List.get?_cons_succ] at h
      obtain ⟨j, hj, hkj⟩ := ih h
      exact ⟨j + 1, by simp [lastRBrace, hj], by omega⟩

/-- C4 counterexample: raw LLM text whose `{...}` span is valid JSON, yet
the request does *not* succeed — the parsed object's
`multiplier_suggestion` is `null`, `float(None)` raises, and the handler
answers 502. -/
theorem valid_span_but_request_fails :
    braceSpan "note \x7b\"multiplier_suggestion\": null\x7d end" =
      some "\x7b\"multiplier_suggestion\": null\x7d" ∧
    jsonLoads "\x7b\"multiplier_suggestion\": null\x7d" =
      some (.obj [("multiplier_suggestion", .null)]) ∧
    enhance_estimate envK (.text "note \x7b\"multiplier_suggestion\": null\x7d end") "POST"
      (some payloadLlm) =
      .resp 502 (llmFailedBody "could not convert multiplier_suggestion to float") :=
  ⟨rfl, rfl, rfl⟩

/-- C4 as amended: the raw text's extraction span is exactly the substring
from the first `{` through the last `}` and exists iff some `{` is
followed by a later `}`; with no span, or a span that is not valid JSON,
the request fails as a 502 `LLM call failed` error whose message includes
the cause; with a valid-JSON span, processing continues with the parsed
object, and the request succeeds *provided* the suggestion-shaping step
(the `float()` conversion of `multiplier_suggestion`) succeeds. -/
theorem extraction_behavior (text : String) :
    ((braceSpan text).isSome ↔
      ∃ i j, i < j ∧ text.toList.get? i = some '\x7b' ∧ text.toList.get? j = some '\x7d') ∧
    (braceSpan text = none →
      enhance_estimate envK (.text text) "POST" (some payloadLlm) =
        .resp 502 (llmFailedBody "No JSON object found in model output")) ∧
    (∀ s, braceSpan text = some s → jsonLoads s = none →
      enhance_estimate envK (.text text) "POST" (some payloadLlm) =
        .resp 502 (llmFailedBody ("Expecting value: " ++ s))) ∧
    (∀ s out b, braceSpan text = some s → jsonLoads s = some out →
      applySuggestion 1000000 "gemini-2.5-flash" out = .ok b →
      enhance_estimate envK (.text text) "POST" (some payloadLlm) = .resp 200 b) := by
  have hred : ∀ r : LlmReply, enhance_estimate envK r "POST" (some payloadLlm) =
      (match callGemini envK r with
       | .error e => .resp 502 (llmFailedBody e)
       | .ok out =>
         match applySuggestion 1000000 "gemini-2.5-flash" out with
         | .error e => .resp 502 (llmFailedBody e)
         | .ok b => .resp 200 b) := fun r => rfl
  refine ⟨⟨?_, ?_⟩, ?_, ?_, ?_⟩
  · intro hsome
    simp only [braceSpan] at hsome
    cases hf : firstBrace text.toList with
    | none => rw [hf] at hsome; simp at hsome
    | some i =>
      cases hl : lastRBrace text.toList with
      | none => rw [hf, hl] at hsome; simp at hsome
      | some j =>
        rw [hf, hl] at hsome
        by_cases hij : i < j
        · exact ⟨i, j, hij, firstBrace_get hf, lastRBrace_get hl⟩
        · simp [hij] at hsome
  · rintro ⟨i, j, hij, hi, hj⟩
    obtain ⟨i0, hf, hi0⟩ := firstBrace_le hi
    obtain ⟨j0, hl, hj0⟩ := lastRBrace_ge hj
    simp only [braceSpan]
    rw [hf, hl]
    simp [show i0 < j0 by omega]
  · intro hn
    rw [hred (.text text)]
    have hcall : callGemini envK (.text text) = .error "No JSON object found in model output" := by
      show extractJson text = _
      unfold extractJson
      rw [hn]
    rw [hcall]
  · intro s hs hj
    rw [hred (.text text)]
    have hcall : callGemini envK (.text text) = .error ("Expecting value: " ++ s) := by
      show extractJson text = _
      unfold extractJson
      rw [hs]
      show (match jsonLoads s with
            | some j => Except.ok j
            | none => Except.error ("Expecting value: " ++ s)) = _
      rw [hj]
    rw [hcall]
  · intro s out b hs hj hb
    rw [hred (.text text)]
    have hcall : callGemini envK (.text text) = .ok out := by
      show extractJson text = _
      unfold extractJson
      rw [hs]
      show (match jsonLoads s with
            | some j => Except.ok j
            | none => Except.error ("Expecting value: " ++ s)) = _
      rw [hj]
    rw [hcall]
    show (match applySuggestion 1000000 "gemini-2.5-flash" out with
          | Except.error e => HandlerResult.resp 502 (llmFailedBody e)
          | Except.ok b => HandlerResult.resp 200 b) = HandlerResult.resp 200 b
    rw [hb]

/-- Witness: the amended C4 at raw text that is exactly one valid JSON
object with a numeric suggestion. -/
theorem extraction_behavior_witness :
    enhance_estimate envK (.text "\x7b\"multiplier_suggestion\": 1.2\x7d") "POST"
      (some payloadLlm) =
      .resp 200 (suggestionBody 1000000 "gemini-2.5-flash"
        (.obj [("multiplier_suggestion", .float (6/5))]) (6/5)) :=
  (extraction_behavior "\x7b\"multiplier_suggestion\": 1.2\x7d").2.2.2
    "\x7b\"multiplier_suggestion\": 1.2\x7d"
    (.obj [("multiplier_suggestion", .float (6/5))])
    (suggestionBody 1000000 "gemini-2.5-flash"
      (.obj [("multiplier_suggestion", .float (6/5))]) (6/5))
    rfl rfl rfl
